import Mathlib

/-!
# Verification of the UIBridge Spotify adapter and auth middleware

Shallow embedding of `app/adapters/spotify.py` and the auth middleware of
`app/main.py`. Network I/O is modelled by an `Oracle` supplying the HTTP
responses each call would receive, and every adapter function additionally
returns the list of side effects (HTTP calls, sleeps, app launch) it performed,
in order. Python truthiness of optional strings is modelled by `truthy`.
-/

namespace UIBridge

/-- Python truthiness of an `Optional[str]`: `None` and `""` are falsy. -/
def truthy : Option String → Bool
  | none => false
  | some s => !(s == "")

/-- A playback device as the adapter reads it from the devices JSON:
`id`, `name`, `type` may be absent (`d.get(...)`), `is_active` is read
with `bool(...)` / truthiness. -/
structure Device where
  id : Option String
  name : Option String
  type : Option String
  is_active : Bool
deriving DecidableEq

/-- Response of `GET /me/player/devices`: status and decoded device list. -/
structure DevicesResp where
  status : Nat
  devices : List Device
deriving DecidableEq

/-- `_get_devices`: non-200 responses yield the empty list. -/
def _get_devices (r : DevicesResp) : List Device :=
  if r.status ≠ 200 then [] else r.devices

/-- Response of the track search: status and the `uri` field of each item in
`tracks.items` (absent uris are `none`). -/
structure SearchResp where
  status : Nat
  itemUris : List (Option String)
deriving DecidableEq

/-- Response of `GET /me/player/currently-playing` (decoded fields used). -/
structure NowResp where
  status : Nat
  is_playing : Bool
  artistNames : List String
  track : Option String
deriving DecidableEq

/-- Response of the PKCE token exchange POST. -/
structure TokenResp where
  status : Nat
  access_token : Option String
  refresh_token : Option String
deriving DecidableEq

/-- Side effects an adapter call can perform, in trace order. -/
inductive Effect where
  | getDevices
  | launchApp
  | sleep
  | transfer (play : Bool)
  | search
  | playCall
  | pauseCall
  | nowCall
  | exchange
deriving DecidableEq

/-- Environment of HTTP responses: `devicesAt k` is the response to the
`k`-th devices call of the operation; the other fields are the responses
to the (at most one) call of each remaining kind. -/
structure Oracle where
  devicesAt : Nat → DevicesResp
  transferStatus : Nat
  searchResp : SearchResp
  playStatus : Nat
  pauseStatus1 : Nat
  pauseStatus2 : Nat
  nowResp : NowResp

/-- Secret store as the adapter reads it: stored client id and access token. -/
structure Store where
  client_id : Option String
  access_token : Option String
deriving DecidableEq

/-- `r.status_code in (200, 204)`. -/
def inSuccess (s : Nat) : Bool := s == 200 || s == 204

/-- `str.lower()`, modelled structurally over the character list so that
proofs can evaluate it on concrete strings. -/
def strToLower (s : String) : String := String.mk (s.data.map Char.toLower)

/-- `str.startswith(pre)`, modelled structurally over the character lists so
that proofs can evaluate it on concrete strings. -/
def strStartsWith (s pre : String) : Bool := pre.data.isPrefixOf s.data

/-- The `(d.get("type") or "").lower() == "computer"` test of `_pick_device`. -/
def isComputerType (d : Device) : Bool := strToLower (d.type.getD "") == "computer"

/-- `_pick_device`: first active device, else first computer-type device,
else the first device; `none` on the empty list. -/
def _pick_device (devs : List Device) : Option String :=
  match devs with
  | [] => none
  | d0 :: _ =>
    match devs.find? (fun d => d.is_active) with
    | some d => d.id
    | none =>
      match devs.find? isComputerType with
      | some d => d.id
      | none => d0.id

/-- `int(max(1, wait_seconds / 0.5))` (division by 0.5 and the max are exact
in IEEE doubles, so ℚ models the float computation faithfully). -/
def stepsOf (wait_seconds : ℚ) : Nat :=
  (⌊max 1 (wait_seconds / (1 / 2))⌋).toNat

/-- The poll loop of `_ensure_device`: up to `k` iterations, each sleeping
0.5s then fetching devices (the `idx`-th devices call) and picking; returns
at the first truthy pick. -/
def _poll (o : Oracle) : Nat → Nat → Option String × List Effect
  | 0, _ => (none, [])
  | Nat.succ k, idx =>
    let choice := _pick_device (_get_devices (o.devicesAt idx))
    if truthy choice then (choice, [Effect.sleep, Effect.getDevices])
    else
      let rest := _poll o k (idx + 1)
      (rest.1, Effect.sleep :: Effect.getDevices :: rest.2)

/-- `_ensure_device`: one immediate attempt; if it yields no (truthy) device,
launch the app and poll `stepsOf wait_seconds` times. -/
def _ensure_device (o : Oracle) (wait_seconds : ℚ) : Option String × List Effect :=
  let choice := _pick_device (_get_devices (o.devicesAt 0))
  if truthy choice then (choice, [Effect.getDevices])
  else
    let r := _poll o (stepsOf wait_seconds) 1
    (r.1, Effect.getDevices :: Effect.launchApp :: r.2)

/-- `list_devices`: `[]` when no access token is stored, else the devices of
one devices call, re-packed field by field. -/
def list_devices (st : Store) (o : Oracle) : List Device × List Effect :=
  if !truthy st.access_token then ([], [])
  else
    ((_get_devices (o.devicesAt 0)).map
      (fun d => { id := d.id, name := d.name, type := d.type, is_active := d.is_active }),
     [Effect.getDevices])

/-- Result of `now_playing`: an error-tagged map, the bare
`{"is_playing": false}` map (204 branch), or the parsed info map. -/
inductive NowOut where
  | err (tag : String)
  | notPlaying
  | info (is_playing : Bool) (artist : Option String) (track : Option String)
deriving DecidableEq

/-- `", ".join(names) or None`. -/
def joinArtists (names : List String) : Option String :=
  let s := String.intercalate ", " names
  if s == "" then none else some s

/-- `now_playing`. -/
def now_playing (st : Store) (o : Oracle) : NowOut × List Effect :=
  if !truthy st.access_token then (NowOut.err "not_linked", [])
  else
    let r := o.nowResp
    if r.status == 204 then (NowOut.notPlaying, [Effect.nowCall])
    else if r.status == 403 then (NowOut.err "premium_required", [Effect.nowCall])
    else if r.status != 200 then (NowOut.err ("spotify_" ++ toString r.status), [Effect.nowCall])
    else (NowOut.info r.is_playing (joinArtists r.artistNames) r.track, [Effect.nowCall])

/-- `pause`: 200/204 succeed; 403 fails; 404 triggers the single recovery
(ensure device, transfer with play=false, one retried pause); anything else
fails. -/
def pause (st : Store) (o : Oracle) : Bool × List Effect :=
  if !truthy st.access_token then (false, [])
  else
    let s1 := o.pauseStatus1
    if inSuccess s1 then (true, [Effect.pauseCall])
    else if s1 == 403 then (false, [Effect.pauseCall])
    else if s1 == 404 then
      let ed := _ensure_device o 8
      if !truthy ed.1 then (false, Effect.pauseCall :: ed.2)
      else if !inSuccess o.transferStatus then
        (false, Effect.pauseCall :: ed.2 ++ [Effect.transfer false])
      else
        (inSuccess o.pauseStatus2,
         Effect.pauseCall :: ed.2 ++ [Effect.transfer false, Effect.pauseCall])
    else (false, [Effect.pauseCall])

/-- `play_query`: ensure a device, search (limit 1), transfer with play=true,
then play; each failing step short-circuits the rest. -/
def play_query (st : Store) (o : Oracle) (query : String) : Bool × List Effect :=
  if !truthy st.access_token then (false, [])
  else
    let ed := _ensure_device o 8
    if !truthy ed.1 then (false, ed.2)
    else
      let sr := o.searchResp
      let effs1 := ed.2 ++ [Effect.search]
      if sr.status == 403 then (false, effs1)
      else if sr.status != 200 then (false, effs1)
      else
        match sr.itemUris with
        | [] => (false, effs1)
        | uri0 :: _ =>
          if !truthy uri0 then (false, effs1)
          else if !inSuccess o.transferStatus then (false, effs1 ++ [Effect.transfer true])
          else (inSuccess o.playStatus, effs1 ++ [Effect.transfer true, Effect.playCall])

/-- The persisted PKCE session file content: `saved.get("state")` and
`saved.get("code_verifier")`. -/
structure PkceData where
  state : Option String
  code_verifier : Option String
deriving DecidableEq

/-- Environment of one `handle_callback` call: the callback query params
(`error`, `code`, `state`), the PKCE session file (`none` models a missing
or unreadable file), the stored client id, and the token-exchange response
the POST would receive. -/
structure CallbackEnv where
  params_error : Option String
  params_code : Option String
  params_state : Option String
  pkce : Option PkceData
  client_id : Option String
  exchange : TokenResp
deriving DecidableEq

/-- Outcome of `handle_callback`: returned bool, tokens written to the
secret store during the call, whether the PKCE file was deleted, and the
HTTP calls performed. -/
structure CallbackOut where
  ok : Bool
  stored_access : Option String
  stored_refresh : Option String
  pkce_deleted : Bool
  effects : List Effect
deriving DecidableEq

/-- The early-return outcome of `handle_callback`: `False`, nothing stored,
session kept, no HTTP call. -/
def cbFail : CallbackOut :=
  { ok := false, stored_access := none, stored_refresh := none,
    pkce_deleted := false, effects := [] }

/-- `handle_callback`: validates params and the stored PKCE session, then
exchanges the code for tokens and stores them. -/
def handle_callback (e : CallbackEnv) : CallbackOut :=
  if truthy e.params_error then cbFail
  else if !truthy e.params_code || !truthy e.params_state then cbFail
  else
    match e.pkce with
    | none => cbFail
    | some saved =>
      if !truthy saved.code_verifier || e.params_state != saved.state then cbFail
      else if !truthy e.client_id then cbFail
      else if e.exchange.status != 200 then { cbFail with effects := [Effect.exchange] }
      else if !truthy e.exchange.access_token || !truthy e.exchange.refresh_token then
        { cbFail with effects := [Effect.exchange] }
      else
        { ok := true, stored_access := e.exchange.access_token,
          stored_refresh := e.exchange.refresh_token, pkce_deleted := true,
          effects := [Effect.exchange] }

/-- The query parameters `begin_login` puts into the authorization URL. -/
structure AuthRequest where
  response_type : String
  client_id : String
  redirect_uri : String
  code_challenge_method : String
  code_challenge : String
  state : String
  scope : String
  show_dialog : String
deriving DecidableEq

def REDIRECT_URI : String := "http://127.0.0.1:5025/auth/spotify/callback"

def scopes : List String :=
  ["user-read-playback-state", "user-modify-playback-state",
   "user-read-currently-playing", "app-remote-control", "streaming"]

/-- `begin_login`. `state`, `verifier`, `challenge` stand for the freshly
generated random values; `Except.error msg` models `raise RuntimeError(msg)`.
On success returns the authorization request parameters and the PKCE session
written to disk. -/
def begin_login (client_id : Option String) (state verifier challenge : String) :
    Except String (AuthRequest × PkceData) :=
  if !truthy client_id then Except.error "spotify client_id not set"
  else
    Except.ok
      ({ response_type := "code", client_id := client_id.getD "",
         redirect_uri := REDIRECT_URI, code_challenge_method := "S256",
         code_challenge := challenge, state := state,
         scope := String.intercalate " " scopes, show_dialog := "false" },
       { state := some state, code_verifier := some verifier })

/-- Outcome of the auth middleware: forward to the route handler, or reject
with the 401 JSON body. -/
inductive DispatchOut where
  | forwarded
  | unauthorized
deriving DecidableEq

/-- The `dispatch` middleware of `app/main.py`: `/`, `/health*` and
`/auth/spotify*` are public; `/v1*` requires the `X-UIB-Token` header to
equal the stored token; everything else is forwarded untouched. -/
def dispatch (path : String) (header : Option String) (token : String) : DispatchOut :=
  let p := if path == "" then "/" else path
  if p == "/" || strStartsWith p "/health" || strStartsWith p "/auth/spotify" then
    DispatchOut.forwarded
  else if strStartsWith p "/v1" then
    if header == some token then DispatchOut.forwarded else DispatchOut.unauthorized
  else DispatchOut.forwarded

/-! ## Shape of `handle_callback` outcomes -/

/-- Every `handle_callback` run is an early validation failure (no HTTP call),
a failed exchange (one HTTP call, nothing stored, session kept), or a full
success (one HTTP call, both tokens stored, session deleted). -/
lemma callback_shape (e : CallbackEnv) :
    handle_callback e = cbFail ∨
    (handle_callback e = { cbFail with effects := [Effect.exchange] } ∧
      (e.exchange.status ≠ 200 ∨ truthy e.exchange.access_token = false ∨
       truthy e.exchange.refresh_token = false)) ∨
    (handle_callback e =
      { ok := true, stored_access := e.exchange.access_token,
        stored_refresh := e.exchange.refresh_token, pkce_deleted := true,
        effects := [Effect.exchange] } ∧
      e.exchange.status = 200 ∧ truthy e.exchange.access_token = true ∧
      truthy e.exchange.refresh_token = true) := by
  unfold handle_callback
  split
  · exact Or.inl rfl
  split
  · exact Or.inl rfl
  split
  · exact Or.inl rfl
  split
  · exact Or.inl rfl
  split
  · exact Or.inl rfl
  split
  · rename_i h
    exact Or.inr (Or.inl ⟨rfl, Or.inl (by simpa using h)⟩)
  split
  · rename_i h
    rcases Bool.or_eq_true _ _ |>.mp h with h1 | h1
    · exact Or.inr (Or.inl ⟨rfl, Or.inr (Or.inl (by simpa using h1))⟩)
    · exact Or.inr (Or.inl ⟨rfl, Or.inr (Or.inr (by simpa using h1))⟩)
  rename_i h200 hboth
  have hb : truthy e.exchange.access_token = true ∧ truthy e.exchange.refresh_token = true := by
    simpa using hboth
  exact Or.inr (Or.inr ⟨rfl, by simpa using h200, hb.1, hb.2⟩)

/-- Every validation failure returns the early-fail outcome unchanged. -/
lemma callback_early_fail (e : CallbackEnv)
    (h : truthy e.params_code = false ∨ truthy e.params_state = false ∨
         e.pkce = none ∨
         (∃ saved, e.pkce = some saved ∧ e.params_state ≠ saved.state)) :
    handle_callback e = cbFail := by
  unfold handle_callback
  rcases h with h | h | h | ⟨saved, hsv, hne⟩
  · split
    · rfl
    split
    · rfl
    rename_i hcond
    have hb : truthy e.params_code = true ∧ truthy e.params_state = true := by
      simpa using hcond
    exact absurd hb.1 (by simp [h])
  · split
    · rfl
    split
    · rfl
    rename_i hcond
    have hb : truthy e.params_code = true ∧ truthy e.params_state = true := by
      simpa using hcond
    exact absurd hb.2 (by simp [h])
  · split
    · rfl
    split
    · rfl
    rw [h]
  · split
    · rfl
    split
    · rfl
    rw [hsv]
    have : (e.params_state != saved.state) = true := by simpa using hne
    simp [this]

/-! ## Claim theorems: OAuth callback -/

/-- C1: if `code` or `state` is missing (or empty), or no stored PKCE session
exists (missing/unreadable file), or the provided state differs from the
stored session's state, then `handle_callback` returns failure, performs no
token-exchange HTTP call, and stores no tokens. -/
theorem callback_validation_failure (e : CallbackEnv)
    (h : truthy e.params_code = false ∨ truthy e.params_state = false ∨
         e.pkce = none ∨
         (∃ saved, e.pkce = some saved ∧ e.params_state ≠ saved.state)) :
    (handle_callback e).ok = false ∧ (handle_callback e).effects = [] ∧
    (handle_callback e).stored_access = none ∧
    (handle_callback e).stored_refresh = none := by
  rw [callback_early_fail e h]
  exact ⟨rfl, rfl, rfl, rfl⟩

/-- A callback environment with no stored PKCE session. -/
def c1Env : CallbackEnv :=
  { params_error := none, params_code := some "authcode", params_state := some "st1",
    pkce := none, client_id := some "cid",
    exchange := { status := 200, access_token := some "a", refresh_token := some "r" } }

/-- Witness for C1: with no stored PKCE session, the callback fails with no
exchange call and nothing stored. -/
theorem callback_validation_failure_witness :
    (handle_callback c1Env).ok = false ∧ (handle_callback c1Env).effects = [] ∧
    (handle_callback c1Env).stored_access = none ∧
    (handle_callback c1Env).stored_refresh = none :=
  callback_validation_failure c1Env (Or.inr (Or.inr (Or.inl rfl)))

/-- A callback environment where validation passes but the token exchange
returns HTTP 400. -/
def c2Env : CallbackEnv :=
  { params_error := none, params_code := some "authcode", params_state := some "st1",
    pkce := some { state := some "st1", code_verifier := some "ver" },
    client_id := some "cid",
    exchange := { status := 400, access_token := none, refresh_token := none } }

/-- C2 counterexample: state validation passes and the token exchange is
performed and fails (HTTP 400), yet the PKCE session file is NOT deleted —
refuting "the session is invalidated whether the exchange succeeds or
fails". -/
theorem callback_session_kept_on_failure :
    (handle_callback c2Env).effects = [Effect.exchange] ∧
    (handle_callback c2Env).ok = false ∧
    (handle_callback c2Env).pkce_deleted = false := by
  refine ⟨?_, ?_, ?_⟩ <;> rfl

/-- C2 amended: the PKCE session file is deleted exactly when the callback
succeeds (exchange returned 200 with both tokens present); on any failure —
validation failure or failed exchange — the session is not deleted. -/
theorem callback_session_deleted_iff_success (e : CallbackEnv) :
    (handle_callback e).pkce_deleted = (handle_callback e).ok := by
  rcases callback_shape e with h | ⟨h, _⟩ | ⟨h, _⟩ <;> rw [h] <;> rfl

/-- C3: a non-200 exchange status or a missing access/refresh token yields
failure with neither token persisted; any persisted token implies full
success, and success stores exactly the two tokens of a 200 response. -/
theorem callback_no_token_slips_through (e : CallbackEnv) :
    ((e.exchange.status ≠ 200 ∨ truthy e.exchange.access_token = false ∨
      truthy e.exchange.refresh_token = false) →
      (handle_callback e).ok = false ∧ (handle_callback e).stored_access = none ∧
      (handle_callback e).stored_refresh = none) ∧
    ((handle_callback e).ok = true →
      e.exchange.status = 200 ∧ truthy e.exchange.access_token = true ∧
      truthy e.exchange.refresh_token = true ∧
      (handle_callback e).stored_access = e.exchange.access_token ∧
      (handle_callback e).stored_refresh = e.exchange.refresh_token) ∧
    ((handle_callback e).stored_access.isSome = true ∨
     (handle_callback e).stored_refresh.isSome = true →
      (handle_callback e).ok = true) := by
  rcases callback_shape e with h | ⟨h, hside⟩ | ⟨h, h200, ha, hr⟩
  · rw [h]
    exact ⟨fun _ => ⟨rfl, rfl, rfl⟩, fun hh => absurd hh (by simp [cbFail]),
      fun hh => by simp [cbFail] at hh⟩
  · rw [h]
    exact ⟨fun _ => ⟨rfl, rfl, rfl⟩, fun hh => absurd hh (by simp [cbFail]),
      fun hh => by simp [cbFail] at hh⟩
  · rw [h]
    refine ⟨fun hh => ?_, fun _ => ⟨h200, ha, hr, rfl, rfl⟩, fun _ => rfl⟩
    rcases hh with hh | hh | hh
    · exact absurd h200 hh
    · exact absurd ha (by simp [hh])
    · exact absurd hr (by simp [hh])

/-- A callback environment where validation passes, the exchange returns 200,
but the refresh token is missing from the response. -/
def c3Env : CallbackEnv :=
  { params_error := none, params_code := some "authcode", params_state := some "st1",
    pkce := some { state := some "st1", code_verifier := some "ver" },
    client_id := some "cid",
    exchange := { status := 200, access_token := some "a", refresh_token := none } }

/-- Witness for C3: a 200 response missing the refresh token stores neither
token and fails. -/
theorem callback_no_token_slips_through_witness :
    (handle_callback c3Env).ok = false ∧ (handle_callback c3Env).stored_access = none ∧
    (handle_callback c3Env).stored_refresh = none :=
  (callback_no_token_slips_through c3Env).1 (Or.inr (Or.inr rfl))

/-! ## Claim theorems: device picking, middleware, not-linked guards -/

/-- C8: `_pick_device` returns the id of the first active device if any;
otherwise the id of the first computer-type device; otherwise the id of the
first device; and `none` on the empty list. (It is a pure function of the
list, hence deterministic for a given input ordering.) -/
theorem pick_device_policy :
    _pick_device [] = none ∧
    (∀ devs d, devs.find? (fun x => x.is_active) = some d → _pick_device devs = d.id) ∧
    (∀ devs d, (∀ x ∈ devs, x.is_active = false) → devs.find? isComputerType = some d →
      _pick_device devs = d.id) ∧
    (∀ d0 rest, (∀ x ∈ d0 :: rest, x.is_active = false) →
      (∀ x ∈ d0 :: rest, isComputerType x = false) →
      _pick_device (d0 :: rest) = d0.id) := by
  refine ⟨rfl, ?_, ?_, ?_⟩
  · intro devs d hfind
    cases devs with
    | nil => simp at hfind
    | cons d0 rest => simp [_pick_device, hfind]
  · intro devs d hact hfind
    cases devs with
    | nil => simp at hfind
    | cons d0 rest =>
      have hnone : (d0 :: rest).find? (fun x => x.is_active) = none := by
        simp only [List.find?_eq_none]
        intro x hx
        simp [hact x hx]
      simp [_pick_device, hnone, hfind]
  · intro d0 rest hact hcomp
    have hnone : (d0 :: rest).find? (fun x => x.is_active) = none := by
      simp only [List.find?_eq_none]
      intro x hx
      simp [hact x hx]
    have hnone2 : (d0 :: rest).find? isComputerType = none := by
      simp only [List.find?_eq_none]
      intro x hx
      simp [hcomp x hx]
    simp [_pick_device, hnone, hnone2]

/-- Witness for C8: a list with an inactive phone then an inactive computer
picks the computer's id (the second clause of the policy). -/
theorem pick_device_policy_witness :
    _pick_device
      [{ id := some "p1", name := none, type := some "phone", is_active := false },
       { id := some "c1", name := none, type := some "computer", is_active := false }] =
      some "c1" :=
  pick_device_policy.2.2.1
    [{ id := some "p1", name := none, type := some "phone", is_active := false },
     { id := some "c1", name := none, type := some "computer", is_active := false }]
    { id := some "c1", name := none, type := some "computer", is_active := false }
    (by decide) (by decide)

/-- C5: any request whose (normalized) path is neither under `/v1` nor one of
the public paths (`/`, `/health*`, `/auth/spotify*`) is forwarded to its
handler, whatever the header and stored token are — no token check. -/
theorem dispatch_non_v1_non_public_forwarded (path : String) (header : Option String)
    (token : String)
    (h1 : strStartsWith path "/v1" = false)
    (h2 : ¬(path = "/" ∨ strStartsWith path "/health" = true ∨
            strStartsWith path "/auth/spotify" = true)) :
    dispatch path header token = DispatchOut.forwarded := by
  unfold dispatch
  by_cases hp : path == ""
  · have : path = "" := by simpa using hp
    simp [this]
  · push_neg at h2
    obtain ⟨hroot, hhealth, hauth⟩ := h2
    simp only [hp, if_false]
    have hr : (path == "/") = false := by
      simpa using hroot
    simp [hr, hhealth, hauth, h1]

/-- Witness for C5: `/docs` is forwarded with a wrong header and any token. -/
theorem dispatch_non_v1_non_public_forwarded_witness :
    dispatch "/docs" (some "wrong") "tok" = DispatchOut.forwarded :=
  dispatch_non_v1_non_public_forwarded "/docs" (some "wrong") "tok" (by decide)
    (by decide)

/-- C9: every playback operation invoked with no stored access token fails
fast with its sentinel and performs no network call: `now_playing` returns
the `not_linked` error map, `pause` and `play_query` return `false`, and
`list_devices` returns `[]` — all with an empty effect trace. -/
theorem not_linked_fails_fast (st : Store) (o : Oracle) (q : String)
    (htok : truthy st.access_token = false) :
    now_playing st o = (NowOut.err "not_linked", []) ∧
    pause st o = (false, []) ∧
    play_query st o q = (false, []) ∧
    list_devices st o = ([], []) := by
  refine ⟨?_, ?_, ?_, ?_⟩ <;> simp [now_playing, pause, play_query, list_devices, htok]

/-- A store with nothing configured. -/
def emptyStore : Store := { client_id := none, access_token := none }

/-- A fixed benign oracle used by witnesses. -/
def oracle0 : Oracle :=
  { devicesAt := fun _ => { status := 200, devices := [] },
    transferStatus := 204,
    searchResp := { status := 200, itemUris := [] },
    playStatus := 204, pauseStatus1 := 204, pauseStatus2 := 204,
    nowResp := { status := 200, is_playing := true, artistNames := [], track := none } }

/-- Witness for C9: with an empty store, all four operations return their
sentinels with no effects. -/
theorem not_linked_fails_fast_witness :
    now_playing emptyStore oracle0 = (NowOut.err "not_linked", []) ∧
    pause emptyStore oracle0 = (false, []) ∧
    play_query emptyStore oracle0 "song" = (false, []) ∧
    list_devices emptyStore oracle0 = ([], []) :=
  not_linked_fails_fast emptyStore oracle0 "song" rfl

/-- C4 counterexample: `begin_login` with no stored client id does NOT return
a sentinel value — it raises (`Except.error` models the
`raise RuntimeError("spotify client_id not set")` at `begin_login`'s start),
refuting "adapter-level operations never raise for not-configured states". -/
theorem begin_login_raises_when_unconfigured :
    begin_login none "st" "ver" "chal" = Except.error "spotify client_id not set" := rfl

/-- C4 amended: every adapter entry point except `begin_login` returns a
sentinel failure value for the expected not-configured / not-linked states
(`handle_callback` returns `False` with no exchange call when no client id is
stored; the playback operations return `false` / `[]` / an error-tagged map
when no access token is stored); `begin_login` instead raises `RuntimeError`
when no client id is stored. -/
theorem adapters_sentinel_failures (st : Store) (o : Oracle) (q s v c : String)
    (e : CallbackEnv)
    (hcid : truthy st.client_id = false) (htok : truthy st.access_token = false)
    (hecid : truthy e.client_id = false) :
    begin_login st.client_id s v c = Except.error "spotify client_id not set" ∧
    ((handle_callback e).ok = false ∧ (handle_callback e).effects = []) ∧
    now_playing st o = (NowOut.err "not_linked", []) ∧
    pause st o = (false, []) ∧
    play_query st o q = (false, []) ∧
    list_devices st o = ([], []) := by
  refine ⟨?_, ?_, (not_linked_fails_fast st o q htok).1,
    (not_linked_fails_fast st o q htok).2.1,
    (not_linked_fails_fast st o q htok).2.2.1,
    (not_linked_fails_fast st o q htok).2.2.2⟩
  · simp [begin_login, hcid]
  · have : handle_callback e = cbFail ∨
        (handle_callback e).effects = [Effect.exchange] ∧ False := by
      unfold handle_callback
      split
      · exact Or.inl rfl
      split
      · exact Or.inl rfl
      split
      · exact Or.inl rfl
      split
      · exact Or.inl rfl
      split
      · exact Or.inl rfl
      all_goals
        rename_i hcl
        exact absurd (show truthy e.client_id = true by simpa using hcl)
          (by simp [hecid])
    rcases this with h | ⟨_, hf⟩
    · rw [h]; exact ⟨rfl, rfl⟩
    · exact absurd hf (by simp)

/-- An all-empty callback environment (no client id stored). -/
def c4Env : CallbackEnv :=
  { params_error := none, params_code := some "authcode", params_state := some "st1",
    pkce := some { state := some "st1", code_verifier := some "ver" },
    client_id := none,
    exchange := { status := 200, access_token := some "a", refresh_token := some "r" } }

/-- Witness for C4 (amended): concrete empty store and environment. -/
theorem adapters_sentinel_failures_witness :
    begin_login emptyStore.client_id "s" "v" "c" = Except.error "spotify client_id not set" ∧
    ((handle_callback c4Env).ok = false ∧ (handle_callback c4Env).effects = []) ∧
    now_playing emptyStore oracle0 = (NowOut.err "not_linked", []) ∧
    pause emptyStore oracle0 = (false, []) ∧
    play_query emptyStore oracle0 "q" = (false, []) ∧
    list_devices emptyStore oracle0 = ([], []) :=
  adapters_sentinel_failures emptyStore oracle0 "q" "s" "v" "c" c4Env rfl rfl rfl

/-! ## Lemmas about the `_ensure_device` poll loop -/

/-- The first truthy device pick among `k` successive devices calls starting
at call index `idx` (a transparent restatement of what the poll loop scans). -/
def firstPick (o : Oracle) : Nat → Nat → Option String
  | 0, _ => none
  | Nat.succ k, idx =>
    let p := _pick_device (_get_devices (o.devicesAt idx))
    if truthy p then p else firstPick o k (idx + 1)

lemma poll_result (o : Oracle) : ∀ k idx, (_poll o k idx).1 = firstPick o k idx := by
  intro k
  induction k with
  | zero => intro idx; rfl
  | succ k ih =>
    intro idx
    simp only [_poll, firstPick]
    by_cases h : truthy (_pick_device (_get_devices (o.devicesAt idx)))
    · simp [h]
    · simp [h, ih]

lemma poll_effect_kinds (o : Oracle) :
    ∀ k idx, ∀ ef ∈ (_poll o k idx).2,
      ef = Effect.sleep ∨ ef = Effect.getDevices := by
  intro k
  induction k with
  | zero => intro idx ef hef; simp [_poll] at hef
  | succ k ih =>
    intro idx ef hef
    simp only [_poll] at hef
    by_cases h : truthy (_pick_device (_get_devices (o.devicesAt idx)))
    · simp [h] at hef
      rcases hef with hef | hef
      · exact Or.inl hef
      · exact Or.inr hef
    · simp [h] at hef
      rcases hef with hef | hef | hef
      · exact Or.inl hef
      · exact Or.inr hef
      · exact ih (idx + 1) ef hef

lemma poll_getDevices_count (o : Oracle) :
    ∀ k idx, ((_poll o k idx).2).count Effect.getDevices ≤ k := by
  intro k
  induction k with
  | zero => intro idx; simp [_poll]
  | succ k ih =>
    intro idx
    simp only [_poll]
    by_cases h : truthy (_pick_device (_get_devices (o.devicesAt idx)))
    · simp [h, List.count_cons]
    · simp only [h, if_false, Bool.false_eq_true]
      simp [List.count_cons]
      have := ih (idx + 1)
      omega

lemma poll_sleep_count (o : Oracle) :
    ∀ k idx, ((_poll o k idx).2).count Effect.sleep =
      ((_poll o k idx).2).count Effect.getDevices := by
  intro k
  induction k with
  | zero => intro idx; simp [_poll]
  | succ k ih =>
    intro idx
    simp only [_poll]
    by_cases h : truthy (_pick_device (_get_devices (o.devicesAt idx)))
    · simp [h, List.count_cons]
    · simp only [h, if_false, Bool.false_eq_true]
      simp [List.count_cons, ih (idx + 1)]

/-- Effect kinds the whole `_ensure_device` can produce. -/
lemma ensure_effect_kinds (o : Oracle) (w : ℚ) :
    ∀ ef ∈ (_ensure_device o w).2,
      ef = Effect.sleep ∨ ef = Effect.getDevices ∨ ef = Effect.launchApp := by
  intro ef hef
  unfold _ensure_device at hef
  by_cases h : truthy (_pick_device (_get_devices (o.devicesAt 0)))
  · simp [h] at hef
    exact Or.inr (Or.inl hef)
  · simp [h] at hef
    rcases hef with hef | hef | hef
    · exact Or.inr (Or.inl hef)
    · exact Or.inr (Or.inr hef)
    · rcases poll_effect_kinds o (stepsOf w) 1 ef hef with h1 | h1
      · exact Or.inl h1
      · exact Or.inr (Or.inl h1)

/-- C10: `_ensure_device` always terminates with a bounded trace: it returns
the first truthy device pick among the immediate attempt and the polls,
performs at most `1 + stepsOf w` devices calls in total, where
`stepsOf w = int(max(1, w / 0.5))` further polls follow the immediate one,
each preceded by one 0.5s sleep (sleep count = devices-call count − 1), and
the app launch happens iff the immediate pick yields no device. -/
theorem ensure_device_bounded_first_pick (o : Oracle) (w : ℚ) :
    (_ensure_device o w).1 = firstPick o (stepsOf w + 1) 0 ∧
    ((_ensure_device o w).2).count Effect.getDevices ≤ 1 + stepsOf w ∧
    ((_ensure_device o w).2).count Effect.sleep + 1 =
      ((_ensure_device o w).2).count Effect.getDevices ∧
    (Effect.launchApp ∈ (_ensure_device o w).2 ↔
      truthy (_pick_device (_get_devices (o.devicesAt 0))) = false) := by
  unfold _ensure_device
  by_cases h : truthy (_pick_device (_get_devices (o.devicesAt 0)))
  · simp only [h, if_true]
    refine ⟨?_, ?_, ?_, ?_⟩
    · simp [firstPick, h]
    · simp [List.count_cons]
    · simp [List.count_cons]
    · simp [h]
  · simp only [h, if_false, Bool.false_eq_true]
    refine ⟨?_, ?_, ?_, ?_⟩
    · simp only [firstPick]
      simp [h, poll_result]
    · simp only [List.count_cons]
      have := poll_getDevices_count o (stepsOf w) 1
      simp [List.count_cons]
      omega
    · have := poll_sleep_count o (stepsOf w) 1
      simp [List.count_cons, this]
    · simp [h]

/-! ## Claim theorems: playback orchestration -/

/-- The four possible run shapes of `play_query` when a token is stored. -/
lemma play_query_cases (st : Store) (o : Oracle) (q : String)
    (htok : truthy st.access_token = true) :
    (truthy (_ensure_device o 8).1 = false ∧
      play_query st o q = (false, (_ensure_device o 8).2)) ∨
    (truthy (_ensure_device o 8).1 = true ∧
      play_query st o q = (false, (_ensure_device o 8).2 ++ [Effect.search])) ∨
    (truthy (_ensure_device o 8).1 = true ∧ o.searchResp.status = 200 ∧
      inSuccess o.transferStatus = false ∧
      play_query st o q =
        (false, (_ensure_device o 8).2 ++ [Effect.search, Effect.transfer true])) ∨
    (truthy (_ensure_device o 8).1 = true ∧ o.searchResp.status = 200 ∧
      inSuccess o.transferStatus = true ∧
      play_query st o q =
        (inSuccess o.playStatus,
         (_ensure_device o 8).2 ++
           [Effect.search, Effect.transfer true, Effect.playCall])) := by
  by_cases hd : truthy (_ensure_device o 8).1
  · by_cases h403 : o.searchResp.status == 403
    · refine Or.inr (Or.inl ⟨hd, ?_⟩)
      simp [play_query, htok, hd, h403]
    · by_cases h200 : o.searchResp.status != 200
      · refine Or.inr (Or.inl ⟨hd, ?_⟩)
        simp [play_query, htok, hd, h403, h200]
      · have h200e : o.searchResp.status = 200 := by simpa using h200
        rcases huris : o.searchResp.itemUris with _ | ⟨uri0, rest⟩
        · refine Or.inr (Or.inl ⟨hd, ?_⟩)
          simp [play_query, htok, hd, h403, h200, huris]
        · by_cases hu : truthy uri0
          · by_cases ht : inSuccess o.transferStatus
            · refine Or.inr (Or.inr (Or.inr ⟨hd, h200e, ht, ?_⟩))
              simp [play_query, htok, hd, h403, h200, huris, hu, ht, List.append_assoc]
            · refine Or.inr (Or.inr (Or.inl ⟨hd, h200e, by simpa using ht, ?_⟩))
              simp [play_query, htok, hd, h403, h200, huris, hu, ht, List.append_assoc]
          · refine Or.inr (Or.inl ⟨hd, ?_⟩)
            simp [play_query, htok, hd, h403, h200, huris, hu]
  · refine Or.inl ⟨by simpa using hd, ?_⟩
    simp [play_query, htok, hd]

/-- C6: in every `play_query` run (with a stored token) the search call
happens only if `_ensure_device` resolved a device id (if it did not,
`play_query` fails immediately with only the device-resolution trace); the
play call happens only if the transfer call succeeded; and a failed search
short-circuits transfer and play. -/
theorem play_query_sequencing (st : Store) (o : Oracle) (q : String)
    (htok : truthy st.access_token = true) :
    (truthy (_ensure_device o 8).1 = false →
      play_query st o q = (false, (_ensure_device o 8).2) ∧
      Effect.search ∉ (play_query st o q).2 ∧
      Effect.playCall ∉ (play_query st o q).2) ∧
    (Effect.search ∈ (play_query st o q).2 → truthy (_ensure_device o 8).1 = true) ∧
    (Effect.playCall ∈ (play_query st o q).2 →
      Effect.transfer true ∈ (play_query st o q).2 ∧
      inSuccess o.transferStatus = true) ∧
    (o.searchResp.status ≠ 200 →
      Effect.transfer true ∉ (play_query st o q).2 ∧
      Effect.playCall ∉ (play_query st o q).2) := by
  have hkind := ensure_effect_kinds o 8
  have hsearch : Effect.search ∉ (_ensure_device o 8).2 := by
    intro hmem
    rcases hkind Effect.search hmem with h | h | h <;> simp at h
  have hplay : Effect.playCall ∉ (_ensure_device o 8).2 := by
    intro hmem
    rcases hkind Effect.playCall hmem with h | h | h <;> simp at h
  have htr : Effect.transfer true ∉ (_ensure_device o 8).2 := by
    intro hmem
    rcases hkind (Effect.transfer true) hmem with h | h | h <;> simp at h
  rcases play_query_cases st o q htok with ⟨hd, hpq⟩ | ⟨hd, hpq⟩ |
    ⟨hd, h200, ht, hpq⟩ | ⟨hd, h200, ht, hpq⟩
  · refine ⟨fun _ => ⟨hpq, ?_, ?_⟩, ?_, ?_, fun _ => ⟨?_, ?_⟩⟩ <;>
      rw [hpq] <;> simp_all
  · refine ⟨fun hf => absurd hd (by simp [hf]), ?_, ?_, fun _ => ⟨?_, ?_⟩⟩ <;>
      rw [hpq] <;> simp_all
  · refine ⟨fun hf => absurd hd (by simp [hf]), fun _ => hd, ?_, fun hne => ⟨?_, ?_⟩⟩
    · rw [hpq]
      intro hmem
      simp only [List.mem_append] at hmem
      rcases hmem with hmem | hmem
      · exact absurd hmem hplay
      · simp at hmem
    · exact absurd h200 hne
    · exact absurd h200 hne
  · refine ⟨fun hf => absurd hd (by simp [hf]), fun _ => hd, fun _ => ⟨?_, ht⟩,
      fun hne => absurd h200 hne⟩
    rw [hpq]
    simp

/-- A store with an access token (and client id) present. -/
def linkedStore : Store := { client_id := some "cid", access_token := some "tok" }

/-- An active device, found by the immediate `_ensure_device` attempt. -/
def deviceA : Device :=
  { id := some "d1", name := some "Desk", type := some "Computer", is_active := true }

/-- An oracle for the recovery scenario: first pause gets 404, a device is
available, transfer succeeds, the retried pause (and play) get 204/200. -/
def oracleRec : Oracle :=
  { devicesAt := fun _ => { status := 200, devices := [deviceA] },
    transferStatus := 204,
    searchResp := { status := 200, itemUris := [some "spotify:track:1"] },
    playStatus := 200, pauseStatus1 := 404, pauseStatus2 := 204,
    nowResp := { status := 204, is_playing := false, artistNames := [], track := none } }

/-- Witness for C6: in a full successful run, the play call is in the trace
only together with a successful transfer. -/
theorem play_query_sequencing_witness :
    Effect.transfer true ∈ (play_query linkedStore oracleRec "song").2 ∧
    inSuccess oracleRec.transferStatus = true :=
  (play_query_sequencing linkedStore oracleRec "song" (by decide)).2.2.1 (by decide)

/-- The five possible run shapes of `pause` when a token is stored. -/
lemma pause_cases (st : Store) (o : Oracle)
    (htok : truthy st.access_token = true) :
    (inSuccess o.pauseStatus1 = true ∧ pause st o = (true, [Effect.pauseCall])) ∨
    (inSuccess o.pauseStatus1 = false ∧ o.pauseStatus1 ≠ 404 ∧
      pause st o = (false, [Effect.pauseCall])) ∨
    (o.pauseStatus1 = 404 ∧ truthy (_ensure_device o 8).1 = false ∧
      pause st o = (false, Effect.pauseCall :: (_ensure_device o 8).2)) ∨
    (o.pauseStatus1 = 404 ∧ truthy (_ensure_device o 8).1 = true ∧
      inSuccess o.transferStatus = false ∧
      pause st o =
        (false, Effect.pauseCall :: (_ensure_device o 8).2 ++ [Effect.transfer false])) ∨
    (o.pauseStatus1 = 404 ∧ truthy (_ensure_device o 8).1 = true ∧
      inSuccess o.transferStatus = true ∧
      pause st o =
        (inSuccess o.pauseStatus2,
         Effect.pauseCall :: (_ensure_device o 8).2 ++
           [Effect.transfer false, Effect.pauseCall])) := by
  by_cases h1 : inSuccess o.pauseStatus1
  · refine Or.inl ⟨h1, ?_⟩
    simp [pause, htok, h1]
  · by_cases h403 : o.pauseStatus1 == 403
    · refine Or.inr (Or.inl ⟨by simpa using h1, ?_, ?_⟩)
      · have : o.pauseStatus1 = 403 := by simpa using h403
        simp [this]
      · simp [pause, htok, h1, h403]
    · by_cases h404 : o.pauseStatus1 == 404
      · have h404e : o.pauseStatus1 = 404 := by simpa using h404
        by_cases hd : truthy (_ensure_device o 8).1
        · by_cases ht : inSuccess o.transferStatus
          · refine Or.inr (Or.inr (Or.inr (Or.inr ⟨h404e, hd, ht, ?_⟩)))
            simp [pause, htok, h1, h403, h404, hd, ht]
          · refine Or.inr (Or.inr (Or.inr (Or.inl ⟨h404e, hd, by simpa using ht, ?_⟩)))
            simp [pause, htok, h1, h403, h404, hd, ht]
        · refine Or.inr (Or.inr (Or.inl ⟨h404e, by simpa using hd, ?_⟩))
          simp [pause, htok, h1, h403, h404, hd]
      · refine Or.inr (Or.inl ⟨by simpa using h1, by simpa using h404, ?_⟩)
        simp [pause, htok, h1, h403, h404]

/-- C7: with a token stored, `pause` returns `true` iff the first pause call
got 200/204, or it got 404 and the single recovery succeeded (a device was
resolved, the transfer with play=false succeeded, and the one retried pause
got 200/204); 403 and every other status yield `false`, and the trace never
holds more than two pause calls (no retry beyond the single recovery). -/
theorem pause_recovery_policy (st : Store) (o : Oracle)
    (htok : truthy st.access_token = true) :
    ((pause st o).1 = true ↔
      (inSuccess o.pauseStatus1 = true ∨
        (o.pauseStatus1 = 404 ∧ truthy (_ensure_device o 8).1 = true ∧
         inSuccess o.transferStatus = true ∧ inSuccess o.pauseStatus2 = true))) ∧
    ((pause st o).2).count Effect.pauseCall ≤ 2 := by
  have hp : Effect.pauseCall ∉ (_ensure_device o 8).2 := by
    intro hmem
    rcases ensure_effect_kinds o 8 Effect.pauseCall hmem with h | h | h <;> simp at h
  have hcount : ((_ensure_device o 8).2).count Effect.pauseCall = 0 :=
    List.count_eq_zero.mpr hp
  rcases pause_cases st o htok with ⟨h1, hpe⟩ | ⟨h1, hne, hpe⟩ |
    ⟨h404, hd, hpe⟩ | ⟨h404, hd, ht, hpe⟩ | ⟨h404, hd, ht, hpe⟩
  · rw [hpe]
    exact ⟨⟨fun _ => Or.inl h1, fun _ => rfl⟩, by simp [List.count_cons]⟩
  · rw [hpe]
    refine ⟨⟨fun hf => by simp at hf, fun hr => ?_⟩, by simp [List.count_cons]⟩
    rcases hr with hr | ⟨hr, _⟩
    · exact absurd hr (by simp [h1])
    · exact absurd hr hne
  · rw [hpe]
    refine ⟨⟨fun hf => by simp at hf, fun hr => ?_⟩, ?_⟩
    · rcases hr with hr | ⟨_, hr, _⟩
      · rw [h404] at hr
        simp [inSuccess] at hr
      · exact absurd hr (by simp [hd])
    · simp [List.count_cons, hcount]
  · rw [hpe]
    refine ⟨⟨fun hf => by simp at hf, fun hr => ?_⟩, ?_⟩
    · rcases hr with hr | ⟨_, _, hr, _⟩
      · rw [h404] at hr
        simp [inSuccess] at hr
      · exact absurd hr (by simp [ht])
    · simp [List.count_cons, List.count_append, hcount]
  · rw [hpe]
    refine ⟨⟨fun hf => Or.inr ⟨h404, hd, ht, hf⟩, fun hr => ?_⟩, ?_⟩
    · rcases hr with hr | ⟨_, _, _, hr⟩
      · rw [h404] at hr
        simp [inSuccess] at hr
      · exact hr
    · simp [List.count_cons, List.count_append, hcount]

/-- Witness for C7 (the spec's end-to-end recovery scenario): the first pause
gets 404, a device resolves, the transfer succeeds and the retried pause gets
204, so the overall result is `true` with exactly the single retry. -/
theorem pause_recovery_policy_witness :
    (pause linkedStore oracleRec).1 = true ∧
    ((pause linkedStore oracleRec).2).count Effect.pauseCall ≤ 2 :=
  ⟨(pause_recovery_policy linkedStore oracleRec (by decide)).1.mpr
      (Or.inr ⟨rfl, by decide, rfl, rfl⟩),
   (pause_recovery_policy linkedStore oracleRec (by decide)).2⟩

end UIBridge
